import Mathlib

/-! # Verification of `analyse-to-api.py`

A shallow embedding of the OpenPrescribing analyse-to-API utility
(`src/analyse-to-api.py`) together with theorems settling the spec claims.

Modelling conventions:
* JSON objects returned by the remote API are modelled as association lists
  `List (String × String)`; a JSON array of objects is a list of such lists.
* The network is modelled as an oracle (`Api`): a pair of functions giving, for
  each request the program can issue, the decoded JSON body of the response.
* The Streamlit UI is modelled by recording, in a result structure, which
  messages/widgets the run produces and the ordered trace of network calls.
* Python strings are Lean `String`s; list/dict operations are translated
  one-for-one from the source.
-/

set_option autoImplicit false

namespace AnalyseToApi

/-- Constant `API_CALL_LIMIT = 100` (line 8 of the source). -/
def API_CALL_LIMIT : Nat := 100

/-! ## URL decoding

Function `parse_url` (lines 10-17) calls `urllib.parse.urlparse` and then
`urllib.parse.parse_qs` on the fragment.  We model the two library calls:
`urlparse` takes the fragment to be everything after the first `#` (empty if
there is none), and `parse_qs` splits the query string on `&`, splits each
non-empty field once on `=`, drops fields without `=` or with an empty value
(`keep_blank_values=False`), replaces `+` by a space and percent-decodes both
name and value, then aggregates values per key preserving first-appearance
order of keys.  Percent-decoding is modelled for single-byte escapes `%XX`
(invalid escapes are kept literally, as `unquote` does); multi-byte UTF-8
escape sequences do not occur in any input considered here. -/

/-- Everything after the first `#` of the URL: the `fragment` component that
`urlparse` extracts (empty when there is no `#`). -/
def fragmentOf : List Char → List Char
  | [] => []
  | c :: cs => if c = '#' then cs else fragmentOf cs

/-- Split a character list on a separator character.  Always returns at least
one (possibly empty) chunk, like Python's `str.split(sep)`. -/
def splitOnChar (sep : Char) : List Char → List (List Char)
  | [] => [[]]
  | c :: cs =>
    if c = sep then
      [] :: splitOnChar sep cs
    else
      match splitOnChar sep cs with
      | [] => [[c]]
      | chunk :: rest => (c :: chunk) :: rest

/-- Split once at the first occurrence of `sep`, like Python's
`str.split(sep, 1)`; `none` when `sep` does not occur. -/
def splitFirst (sep : Char) : List Char → Option (List Char × List Char)
  | [] => none
  | c :: cs =>
    if c = sep then
      some ([], cs)
    else
      (splitFirst sep cs).map (fun p => (c :: p.1, p.2))

/-- Value of a hexadecimal digit character, if it is one. -/
def hexVal (c : Char) : Option Nat :=
  if '0' ≤ c ∧ c ≤ '9' then some (c.toNat - '0'.toNat)
  else if 'a' ≤ c ∧ c ≤ 'f' then some (c.toNat - 'a'.toNat + 10)
  else if 'A' ≤ c ∧ c ≤ 'F' then some (c.toNat - 'A'.toNat + 10)
  else none

/-- Model of `urllib.parse.unquote` restricted to single-byte escapes: each valid `%XX`
pair becomes the character with code `XX`; invalid escapes stay literal. -/
def percentDecode : List Char → List Char
  | [] => []
  | '%' :: a :: b :: rest =>
    match hexVal a, hexVal b with
    | some ha, some hb => Char.ofNat (ha * 16 + hb) :: percentDecode rest
    | _, _ => '%' :: percentDecode (a :: b :: rest)
  | c :: rest => c :: percentDecode rest

/-- The `.replace('+', ' ')` step of `parse_qs`. -/
def plusToSpace (cs : List Char) : List Char :=
  cs.map (fun c => if c = '+' then ' ' else c)

/-- Decode one field name or value as `parse_qs` does. -/
def decodeComponent (cs : List Char) : String :=
  String.mk (percentDecode (plusToSpace cs))

/-- Insert a key/value pair into the ordered multi-dict built by `parse_qs`:
append the value to an existing key, else append a new key at the end. -/
def qsInsert (k v : String) : List (String × List String) → List (String × List String)
  | [] => [(k, [v])]
  | (k₀, vs) :: rest =>
    if k₀ = k then (k₀, vs ++ [v]) :: rest else (k₀, vs) :: qsInsert k v rest

/-- Model of `urllib.parse.parse_qs` with default options: split on `&`, keep only
fields of the form `name=value` with non-empty value, decode, aggregate. -/
def parse_qs (qs : List Char) : List (String × List String) :=
  (splitOnChar '&' qs).foldl
    (fun acc field =>
      if field = [] then acc
      else
        match splitFirst '=' field with
        | none => acc
        | some (n, v) =>
          if v = [] then acc
          else qsInsert (decodeComponent n) (decodeComponent v) acc)
    []

/-- Function `parse_url` (lines 10-17): parse the URL and return the query components
of its fragment. -/
def parse_url (url : String) : List (String × List String) :=
  parse_qs (fragmentOf url.data)

/-! ## Call budget estimator -/

/-- Function `calculate_api_calls` (lines 19-20):
`len(num_ids) + (len(org_ids) * len(num_ids))`. -/
def calculate_api_calls (org_ids num_ids : List String) : Nat :=
  num_ids.length + org_ids.length * num_ids.length

/-! ## Name lookup -/

/-- Python `dict.get(key, default)` on a JSON object modelled as an association
list: the value at the first matching key, if any. -/
def dictGet (obj : List (String × String)) (key : String) : Option String :=
  (obj.find? (fun p => p.1 = key)).map (fun p => p.2)

/-- Function `fetch_name_for_num_id` (lines 22-31), applied to the decoded JSON body of
the name-lookup response: `data[0].get('name', '')` if `data` is non-empty,
else the empty string. -/
def fetch_name_for_num_id (data : List (List (String × String))) : String :=
  match data with
  | [] => ""
  | obj :: _ => (dictGet obj "name").getD ""

/-! ## Code-type heuristic checker -/

/-- One iteration of the flag-setting loop in `check_for_mixed_code_types`
(lines 37-41): `(has_vmp, has_shorter_code)` updated by one code. -/
def mixedStep (flags : Bool × Bool) (code : String) : Bool × Bool :=
  if code.length = 15 then (true, flags.2)
  else if code.length < 15 then (flags.1, true)
  else flags

/-- Function `check_for_mixed_code_types` (lines 33-46). -/
def check_for_mixed_code_types (codes : List String) : Bool :=
  let flags := codes.foldl mixedStep (false, false)
  flags.1 && flags.2

/-! ## Column reorder step -/

/-- The three column names moved to the end (line 117). -/
def movedCols : List String := ["items", "quantity", "actual_cost"]

/-- One iteration of the reorder loop (lines 117-119): if `col` is present,
pop its first occurrence (`cols.pop(cols.index(col))`) and append it at the
end. -/
def moveStep (cs : List String) (col : String) : List String :=
  if col ∈ cs then cs.erase col ++ [col] else cs

/-- The column reorder step of `extract_data` (lines 116-120): apply
`moveStep` for each of `items`, `quantity`, `actual_cost` in that order. -/
def reorderCols (cols : List String) : List String :=
  movedCols.foldl moveStep cols

/-! ## Fetch/merge pipeline -/

/-- The network oracle: decoded JSON bodies of the two remote endpoints.
`nameResp num_id` is the body of the name-lookup request for `num_id`;
`spendResp num_id org_id org_type` is the body of the spending request. -/
structure Api where
  nameResp : String → List (List (String × String))
  spendResp : String → String → String → List (List (String × String))

/-- One network request issued by the pipeline. -/
inductive NetCall where
  | nameLookup (num_id : String)
  | spending (num_id org_id org_type : String)
deriving DecidableEq

/-- Observable outcome of one `extract_data` run. -/
structure ExtractResult where
  /-- Ordered trace of network requests issued. -/
  calls : List NetCall
  /-- The accumulated identifier-name records (`num_id_names`, line 63-71). -/
  num_id_names : List (String × String)
  /-- The "Search too complex" message was shown (lines 52-54). -/
  budget_exceeded : Bool
  /-- The "No data returned from API calls." message was shown (line 131). -/
  no_data_message : Bool
  /-- A result table was displayed (`st.dataframe`, line 123). -/
  displayed_table : Bool
  /-- A CSV download link was offered (lines 126-129). -/
  offered_export : Bool
deriving DecidableEq

/-- Function `extract_data` (lines 48-131), with network and UI effects made explicit.
If the budget exceeds `API_CALL_LIMIT` nothing further runs.  Otherwise one
name lookup per `num_id`, then one spending call per `(org_id, num_id)` pair
(outer loop over `org_ids`); each spending call appends a dataframe to the
`dataframes` list whether or not the response holds any record.  The final
branch tests the `dataframes` *list* for emptiness (`if dataframes:`,
line 110): non-empty means the table is built, displayed and offered for
export; empty means the "no data" message. -/
def extract_data (api : Api) (org : String) (org_ids num_ids : List String) :
    ExtractResult :=
  let api_calls := calculate_api_calls org_ids num_ids
  if api_calls > API_CALL_LIMIT then
    { calls := []
      num_id_names := []
      budget_exceeded := true
      no_data_message := false
      displayed_table := false
      offered_export := false }
  else
    let nameCalls := num_ids.map NetCall.nameLookup
    let num_id_names :=
      num_ids.map (fun nid => (nid, fetch_name_for_num_id (api.nameResp nid)))
    let spendCalls :=
      org_ids.flatMap (fun oid => num_ids.map (fun nid => NetCall.spending nid oid org))
    let dataframes :=
      org_ids.flatMap (fun oid => num_ids.map (fun nid => (nid, api.spendResp nid oid org)))
    if dataframes.isEmpty then
      { calls := nameCalls ++ spendCalls
        num_id_names := num_id_names
        budget_exceeded := false
        no_data_message := true
        displayed_table := false
        offered_export := false }
    else
      { calls := nameCalls ++ spendCalls
        num_id_names := num_id_names
        budget_exceeded := false
        no_data_message := false
        displayed_table := true
        offered_export := true }

/-! ## Button handler -/

/-- Keys of the query-component mapping (Python dict membership). -/
def qcKeys (qc : List (String × List String)) : List String :=
  qc.map (fun p => p.1)

/-- Python `dict.get` on the query components. -/
def qcGet (qc : List (String × List String)) (key : String) : Option (List String) :=
  (qc.find? (fun p => p.1 = key)).map (fun p => p.2)

/-- Python `str.split(',')`: split on commas, never empty. -/
def splitCommas (s : String) : List String :=
  (splitOnChar ',' s.data).map String.mk

/-- Models `org = query_components.get('org', [''])[0]` (line 159). -/
def orgOf (qc : List (String × List String)) : String :=
  ((qcGet qc "org").getD [""]).headD ""

/-- Models `org_ids = query_components.get('orgIds', [])[0].split(',') if 'orgIds'
in query_components else []` (line 162). -/
def orgIdsOf (qc : List (String × List String)) : List String :=
  match qcGet qc "orgIds" with
  | some vs => splitCommas (vs.headD "")
  | none => []

/-- Models `num_ids = query_components.get('numIds', [])[0].split(',') if 'numIds'
in query_components else []` (line 163). -/
def numIdsOf (qc : List (String × List String)) : List String :=
  match qcGet qc "numIds" with
  | some vs => splitCommas (vs.headD "")
  | none => []

/-- Observable outcome of the button handler. -/
structure HandlerResult where
  /-- Flag `error_raised` at line 175. -/
  error_raised : Bool
  /-- The mixed-code-types warning was shown (line 174). -/
  warning : Bool
  /-- Arguments `extract_data` was invoked with, `none` if it never ran. -/
  invoked : Option (String × List String × List String)
deriving DecidableEq

/-- The body of the button click handler (lines 153-176), applied to already
parsed query components: raise a blocking error if `denomIds` is present
and/or `org_ids` is empty; otherwise possibly warn about mixed code types;
invoke `extract_data` only when no error was raised. -/
def button_handler (qc : List (String × List String)) : HandlerResult :=
  let org := orgOf qc
  let org_ids := orgIdsOf qc
  let num_ids := numIdsOf qc
  let denom_error := qc.any (fun p => p.1 = "denomIds")
  let org_error := org_ids.isEmpty
  let error_raised := denom_error || org_error
  { error_raised := error_raised
    warning := !org_error && check_for_mixed_code_types num_ids
    invoked := if error_raised then none else some (org, org_ids, num_ids) }

/-- All-empty network oracle: every request returns zero records. -/
def emptyApi : Api :=
  { nameResp := fun _ => [], spendResp := fun _ _ _ => [] }

/-! ## Helper lemmas -/

/-- Unfolding the flag-setting loop of `check_for_mixed_code_types`: starting
from arbitrary flags, the loop ORs in whether some code has length exactly 15
and whether some code has length below 15. -/
lemma foldl_mixedStep (codes : List String) (a b : Bool) :
    codes.foldl mixedStep (a, b) =
      (a || codes.any (fun c => decide (c.length = 15)),
       b || codes.any (fun c => decide (c.length < 15))) := by
  induction codes generalizing a b with
  | nil => simp
  | cons c cs ih =>
    rw [List.foldl_cons, List.any_cons, List.any_cons]
    by_cases h15 : c.length = 15
    · simp [mixedStep, h15, ih]
    · by_cases hlt : c.length < 15
      · simp [mixedStep, h15, hlt, ih]
      · simp [mixedStep, h15, hlt, ih]

/-- Characterisation of `check_for_mixed_code_types`. -/
lemma check_for_mixed_iff (codes : List String) :
    check_for_mixed_code_types codes = true ↔
      (∃ c ∈ codes, c.length = 15) ∧ ∃ c ∈ codes, c.length < 15 := by
  unfold check_for_mixed_code_types
  rw [foldl_mixedStep]
  simp [List.any_eq_true]

/-- The `dataframes` list built by the nested loops is empty exactly when one
of the two id lists is empty. -/
lemma flatMap_map_isEmpty {α β γ : Type} (l₁ : List α) (l₂ : List β) (f : α → β → γ) :
    (l₁.flatMap fun a => l₂.map (f a)).isEmpty = true ↔ l₁ = [] ∨ l₂ = [] := by
  cases l₁ with
  | nil => simp
  | cons a as =>
    cases l₂ with
    | nil => simp
    | cons b bs => simp

/-! ## Claim theorems -/

/-- C1: for every pair of lists `org_ids` and `num_ids` with lengths `O` and
`P`, `calculate_api_calls org_ids num_ids` returns exactly `P + O * P`; in
particular it returns `0` when both lists are empty. -/
theorem calculate_api_calls_formula (org_ids num_ids : List String) :
    calculate_api_calls org_ids num_ids =
      num_ids.length + org_ids.length * num_ids.length ∧
    calculate_api_calls [] [] = 0 :=
  ⟨rfl, rfl⟩

/-- C8: `check_for_mixed_code_types` returns `true` exactly when the sequence
contains at least one string of length exactly 15 and at least one string of
length strictly below 15; hence it returns `false` for every sequence with
only one of those families or with no identifiers at all. -/
theorem check_for_mixed_code_types_spec (codes : List String) :
    check_for_mixed_code_types codes = true ↔
      (∃ c ∈ codes, c.length = 15) ∧ ∃ c ∈ codes, c.length < 15 :=
  check_for_mixed_iff codes

/-- C9: identifiers longer than 15 characters belong to neither code family:
whenever no identifier has length exactly 15, or no identifier has length
strictly below 15, `check_for_mixed_code_types` returns `false`. -/
theorem check_for_mixed_code_types_one_family (codes : List String)
    (h : (¬ ∃ c ∈ codes, c.length = 15) ∨ ¬ ∃ c ∈ codes, c.length < 15) :
    check_for_mixed_code_types codes = false := by
  cases hb : check_for_mixed_code_types codes with
  | false => rfl
  | true =>
    rcases (check_for_mixed_iff codes).mp hb with ⟨h15, hlt⟩
    rcases h with h | h
    · exact absurd h15 h
    · exact absurd hlt h

/-- Witness for C9 at a 16-character plus a 15-character identifier: neither
is shorter than 15 characters, so no warning. -/
theorem check_for_mixed_code_types_one_family_witness :
    (¬ ∃ c ∈ (["ABCDEFGHIJKLMNOP", "ABCDEFGHIJKLMNO"] : List String), c.length < 15) ∧
    check_for_mixed_code_types ["ABCDEFGHIJKLMNOP", "ABCDEFGHIJKLMNO"] = false :=
  ⟨by decide,
   check_for_mixed_code_types_one_family ["ABCDEFGHIJKLMNOP", "ABCDEFGHIJKLMNO"]
     (Or.inr (by decide))⟩

/-- C2: whenever the computed budget exceeds the ceiling `API_CALL_LIMIT`,
`extract_data` issues no network request at all and instead shows the budget
message, for any network oracle. -/
theorem extract_data_over_limit_no_calls (api : Api) (org : String)
    (org_ids num_ids : List String)
    (h : calculate_api_calls org_ids num_ids > API_CALL_LIMIT) :
    (extract_data api org org_ids num_ids).calls = [] ∧
    (extract_data api org org_ids num_ids).budget_exceeded = true := by
  unfold extract_data
  simp [h]

/-- Witness for C2: 101 products and no organisation need 101 calls. -/
theorem extract_data_over_limit_no_calls_witness :
    calculate_api_calls [] (List.replicate 101 "x") > API_CALL_LIMIT ∧
    (extract_data emptyApi "" [] (List.replicate 101 "x")).calls = [] ∧
    (extract_data emptyApi "" [] (List.replicate 101 "x")).budget_exceeded = true :=
  ⟨by decide,
   extract_data_over_limit_no_calls emptyApi "" [] (List.replicate 101 "x") (by decide)⟩

/-- C10: with non-empty `org_ids` and empty `num_ids`, the budget is `0`, the
gate passes, no network request is issued, and the run ends on the
"No data returned from API calls." branch with no table and no export. -/
theorem extract_data_empty_num_ids (api : Api) (org : String)
    (org_ids : List String) (_h : org_ids ≠ []) :
    calculate_api_calls org_ids [] = 0 ∧
    (extract_data api org org_ids []).budget_exceeded = false ∧
    (extract_data api org org_ids []).calls = [] ∧
    (extract_data api org org_ids []).no_data_message = true ∧
    (extract_data api org org_ids []).displayed_table = false ∧
    (extract_data api org org_ids []).offered_export = false := by
  have hcalc : calculate_api_calls org_ids [] = 0 := by
    simp [calculate_api_calls]
  unfold extract_data
  simp [hcalc, API_CALL_LIMIT]

/-- Witness for C10 at a single organisation. -/
theorem extract_data_empty_num_ids_witness :
    (["A"] : List String) ≠ [] ∧
    (calculate_api_calls ["A"] [] = 0 ∧
     (extract_data emptyApi "ccg" ["A"] []).budget_exceeded = false ∧
     (extract_data emptyApi "ccg" ["A"] []).calls = [] ∧
     (extract_data emptyApi "ccg" ["A"] []).no_data_message = true ∧
     (extract_data emptyApi "ccg" ["A"] []).displayed_table = false ∧
     (extract_data emptyApi "ccg" ["A"] []).offered_export = false) :=
  ⟨by decide, extract_data_empty_num_ids emptyApi "ccg" ["A"] (by decide)⟩

/-- C3 counterexample: a run over one organisation `A` and one product `X` in
which every call returns zero records (the oracle answers `[]` everywhere).
Exactly the two calls below are issued and both return no records, yet the
"no data" message is not shown, a table is displayed and an export is
offered, contradicting the claim. -/
theorem extract_data_zero_records_counterexample :
    emptyApi.nameResp "X" = [] ∧
    emptyApi.spendResp "X" "A" "ccg" = [] ∧
    (extract_data emptyApi "ccg" ["A"] ["X"]).calls =
      [NetCall.nameLookup "X", NetCall.spending "X" "A" "ccg"] ∧
    (extract_data emptyApi "ccg" ["A"] ["X"]).no_data_message = false ∧
    (extract_data emptyApi "ccg" ["A"] ["X"]).displayed_table = true ∧
    (extract_data emptyApi "ccg" ["A"] ["X"]).offered_export = true := by
  refine ⟨rfl, rfl, ?_, ?_, ?_, ?_⟩ <;> decide

/-- C3 amended: within the budget, `extract_data` shows the
"No data returned from API calls." message exactly when the `dataframes`
list is empty, i.e. exactly when no spending call was made (`org_ids` or
`num_ids` empty); the table and the export are produced in every other run,
including runs whose spending calls all return zero records. -/
theorem extract_data_no_data_iff (api : Api) (org : String)
    (org_ids num_ids : List String)
    (h : ¬ calculate_api_calls org_ids num_ids > API_CALL_LIMIT) :
    ((extract_data api org org_ids num_ids).no_data_message = true ↔
      org_ids = [] ∨ num_ids = []) ∧
    ((extract_data api org org_ids num_ids).offered_export = true ↔
      ¬(org_ids = [] ∨ num_ids = [])) ∧
    (extract_data api org org_ids num_ids).displayed_table =
      (extract_data api org org_ids num_ids).offered_export := by
  have hiff := flatMap_map_isEmpty org_ids num_ids
    (fun oid nid => (nid, api.spendResp nid oid org))
  by_cases hd : org_ids = [] ∨ num_ids = []
  · have he : (org_ids.flatMap fun oid =>
        num_ids.map fun nid => (nid, api.spendResp nid oid org)).isEmpty = true :=
      hiff.mpr hd
    unfold extract_data
    simp [h, he, hd]
  · have he : (org_ids.flatMap fun oid =>
        num_ids.map fun nid => (nid, api.spendResp nid oid org)).isEmpty = false := by
      cases he' : (org_ids.flatMap fun oid =>
          num_ids.map fun nid => (nid, api.spendResp nid oid org)).isEmpty with
      | false => rfl
      | true => exact absurd (hiff.mp he') hd
    unfold extract_data
    simp [h, he, hd]

/-- Witness for C3 amended at one organisation and one product over the
all-empty oracle. -/
theorem extract_data_no_data_iff_witness :
    (¬ calculate_api_calls ["A"] ["X"] > API_CALL_LIMIT) ∧
    (((extract_data emptyApi "ccg" ["A"] ["X"]).no_data_message = true ↔
       (["A"] : List String) = [] ∨ (["X"] : List String) = []) ∧
     ((extract_data emptyApi "ccg" ["A"] ["X"]).offered_export = true ↔
       ¬((["A"] : List String) = [] ∨ (["X"] : List String) = [])) ∧
     (extract_data emptyApi "ccg" ["A"] ["X"]).displayed_table =
       (extract_data emptyApi "ccg" ["A"] ["X"]).offered_export) :=
  ⟨by decide, extract_data_no_data_iff emptyApi "ccg" ["A"] ["X"] (by decide)⟩

/-- C5: whenever the parsed query components contain the key `denomIds`, or
the derived `org_ids` list is empty, the button handler raises a blocking
error and never invokes `extract_data`, regardless of `num_ids`. -/
theorem button_handler_blocks (qc : List (String × List String))
    (h : "denomIds" ∈ qcKeys qc ∨ orgIdsOf qc = []) :
    (button_handler qc).error_raised = true ∧
    (button_handler qc).invoked = none := by
  rcases h with h | h
  · obtain ⟨p, hp, hp1⟩ := List.mem_map.mp h
    have hd : qc.any (fun p => p.1 = "denomIds") = true :=
      List.any_eq_true.mpr ⟨p, hp, by simp [hp1]⟩
    unfold button_handler
    simp [hd]
  · have ho : (orgIdsOf qc).isEmpty = true := by simp [h]
    unfold button_handler
    simp [ho]

/-- Witness for C5: a query with a denominator is blocked even though both
`orgIds` and `numIds` are present. -/
theorem button_handler_blocks_witness :
    ("denomIds" ∈ qcKeys [("denomIds", ["7"]), ("orgIds", ["A"]), ("numIds", ["X"])] ∨
      orgIdsOf [("denomIds", ["7"]), ("orgIds", ["A"]), ("numIds", ["X"])] = []) ∧
    ((button_handler [("denomIds", ["7"]), ("orgIds", ["A"]), ("numIds", ["X"])]).error_raised = true ∧
     (button_handler [("denomIds", ["7"]), ("orgIds", ["A"]), ("numIds", ["X"])]).invoked = none) :=
  ⟨Or.inl (by decide),
   button_handler_blocks [("denomIds", ["7"]), ("orgIds", ["A"]), ("numIds", ["X"])]
     (Or.inl (by decide))⟩

/-- C6: decoding the URL `#org=ccg&orgIds=A,B&numIds=X` through `parse_url`
and the first-value-then-comma-split extraction yields `org = "ccg"`,
`org_ids = ["A", "B"]` and `num_ids = ["X"]`. -/
theorem parse_url_example :
    parse_url "#org=ccg&orgIds=A,B&numIds=X" =
      [("org", ["ccg"]), ("orgIds", ["A,B"]), ("numIds", ["X"])] ∧
    orgOf (parse_url "#org=ccg&orgIds=A,B&numIds=X") = "ccg" ∧
    orgIdsOf (parse_url "#org=ccg&orgIds=A,B&numIds=X") = ["A", "B"] ∧
    numIdsOf (parse_url "#org=ccg&orgIds=A,B&numIds=X") = ["X"] := by
  refine ⟨?_, ?_, ?_, ?_⟩ <;> decide

/-- C7: `fetch_name_for_num_id` returns the `name` field of the first object
of a non-empty lookup response and the empty string on the empty response;
consequently, within the budget, a product whose lookup response is empty
still gets an identifier-name record, with empty name, instead of the run
failing. -/
theorem fetch_name_for_num_id_spec :
    (∀ data obj n, data.head? = some obj → dictGet obj "name" = some n →
      fetch_name_for_num_id data = n) ∧
    fetch_name_for_num_id [] = "" ∧
    (∀ (api : Api) (org : String) (org_ids num_ids : List String) (x : String),
      x ∈ num_ids → api.nameResp x = [] →
      ¬ calculate_api_calls org_ids num_ids > API_CALL_LIMIT →
      (x, "") ∈ (extract_data api org org_ids num_ids).num_id_names) := by
  refine ⟨?_, rfl, ?_⟩
  · intro data obj n h1 h2
    cases data with
    | nil => simp at h1
    | cons o rest =>
      have ho : o = obj := by simpa using h1
      subst ho
      simp [fetch_name_for_num_id, h2]
  · intro api org org_ids num_ids x hx hresp hgate
    have hmem : (x, "") ∈
        num_ids.map (fun nid => (nid, fetch_name_for_num_id (api.nameResp nid))) :=
      List.mem_map.mpr ⟨x, hx, by simp [hresp, fetch_name_for_num_id]⟩
    unfold extract_data
    simp only [hgate, if_false, ite_false]
    split <;> simpa using hmem

/-- Witness for C7: a one-object response yields its name, the empty response
yields the empty string, and the record `(X, "")` is accumulated when the
lookup for `X` returns nothing. -/
theorem fetch_name_for_num_id_spec_witness :
    fetch_name_for_num_id [[("name", "Aspirin")]] = "Aspirin" ∧
    fetch_name_for_num_id [] = "" ∧
    ("X", "") ∈ (extract_data emptyApi "ccg" ["A"] ["X"]).num_id_names :=
  ⟨fetch_name_for_num_id_spec.1 [[("name", "Aspirin")]] [("name", "Aspirin")] "Aspirin"
     rfl rfl,
   fetch_name_for_num_id_spec.2.1,
   fetch_name_for_num_id_spec.2.2 emptyApi "ccg" ["A"] ["X"] "X"
     (by decide) rfl (by decide)⟩

/-- Characterisation of the reorder loop for a duplicate-free move list over a
duplicate-free column list: the moved columns that are present are taken out
and appended at the end in the order of the move list. -/
lemma foldl_moveStep :
    ∀ ms cols : List String, ms.Nodup → cols.Nodup →
      ms.foldl moveStep cols =
        cols.filter (fun c => decide (c ∉ ms)) ++
          ms.filter (fun c => decide (c ∈ cols)) := by
  intro ms
  induction ms with
  | nil => intro cols _ _; simp
  | cons m ms ih =>
    intro cols hm hc
    have hm1 : m ∉ ms := (List.nodup_cons.mp hm).1
    have hm2 : ms.Nodup := (List.nodup_cons.mp hm).2
    rw [List.foldl_cons]
    by_cases hmem : m ∈ cols
    · have hstep : moveStep cols m = cols.erase m ++ [m] := if_pos hmem
      have hnm : m ∉ cols.erase m := fun hmm =>
        absurd (hc.mem_erase_iff.mp hmm).1 (by simp)
      have happ : (cols.erase m ++ [m]).Nodup :=
        List.Nodup.append (hc.erase m) (List.nodup_singleton m)
          (List.disjoint_singleton.mpr hnm)
      rw [hstep, ih _ hm2 happ, List.filter_append]
      have h1 : ([m] : List String).filter (fun c => decide (c ∉ ms)) = [m] := by
        simp [hm1]
      have h2 : (cols.erase m).filter (fun c => decide (c ∉ ms)) =
          cols.filter (fun c => decide (c ∉ m :: ms)) := by
        rw [hc.erase_eq_filter m, List.filter_filter]
        apply List.filter_congr
        intro c hcm
        by_cases he : c = m <;> by_cases hin : c ∈ ms <;> simp [he, hin]
      have h3 : ms.filter (fun c => decide (c ∈ cols.erase m ++ [m])) =
          ms.filter (fun c => decide (c ∈ cols)) := by
        apply List.filter_congr
        intro c hcm
        have hne : c ≠ m := fun he => hm1 (he ▸ hcm)
        by_cases hcc : c ∈ cols <;>
          simp [List.mem_append, hc.mem_erase_iff, hne, hcc]
      have h4 : (m :: ms).filter (fun c => decide (c ∈ cols)) =
          m :: ms.filter (fun c => decide (c ∈ cols)) := by
        simp [hmem]
      rw [h1, h2, h3, h4, List.append_assoc]
      simp
    · have hstep : moveStep cols m = cols := if_neg hmem
      rw [hstep, ih _ hm2 hc]
      have h2 : cols.filter (fun c => decide (c ∉ ms)) =
          cols.filter (fun c => decide (c ∉ m :: ms)) := by
        apply List.filter_congr
        intro c hcm
        have hne : c ≠ m := fun he => hmem (he ▸ hcm)
        simp [List.mem_cons, hne]
      have h4 : (m :: ms).filter (fun c => decide (c ∈ cols)) =
          ms.filter (fun c => decide (c ∈ cols)) := by
        simp [hmem]
      rw [h2, h4]

/-- C4 counterexample: on the column list `[quantity, items]` the code
returns `[items, quantity]`, although both columns are moved and their
original relative order is `quantity` before `items`; the loop enforces the
fixed order `items, quantity, actual_cost` instead of the original one. -/
theorem reorderCols_counterexample :
    reorderCols ["quantity", "items"] = ["items", "quantity"] ∧
    reorderCols ["quantity", "items"] ≠ ["quantity", "items"] := by
  refine ⟨?_, ?_⟩ <;> decide

/-- C4 amended: for a duplicate-free column list, the reorder step moves
exactly those of `items`, `quantity`, `actual_cost` that are present to the
rightmost positions, preserving the original relative order of the remaining
columns; the moved columns end up in the fixed order
`items, quantity, actual_cost` (which equals their original relative order
whenever they already appeared in that order, as in the spec's example). -/
theorem reorderCols_spec (cols : List String) (h : cols.Nodup) :
    reorderCols cols =
      cols.filter (fun c => decide (c ∉ movedCols)) ++
        movedCols.filter (fun c => decide (c ∈ cols)) :=
  foldl_moveStep movedCols cols (by decide) h

/-- Witness for C4 amended at the spec's own example column list. -/
theorem reorderCols_spec_witness :
    (["org", "num_id", "items", "name", "quantity", "actual_cost"] : List String).Nodup ∧
    reorderCols ["org", "num_id", "items", "name", "quantity", "actual_cost"] =
      ["org", "num_id", "name", "items", "quantity", "actual_cost"] := by
  refine ⟨by decide, ?_⟩
  rw [reorderCols_spec ["org", "num_id", "items", "name", "quantity", "actual_cost"]
    (by decide)]
  decide

end AnalyseToApi
